import Mathlib

/-!
Shallow embedding of `app/voice_client.py` (class `VoiceManagerClient`).

The client is an async websocket program; we embed it as explicit state
passing over a `Client` record together with an `Env` record that scripts
the outcomes of the transport primitives (`websockets.connect`,
`websocket.send`, `websocket.recv`).  A run that would block forever
(a plain `recv` with no incoming event) or that asks the script for an
outcome it does not contain is modelled as `none` ("stuck"); every
terminating run of the Python code is `some (result, client, env-rest)`.

JSON text frames are modelled at the granularity the code inspects them:
a frame is either binary, a well-formed JSON object (a list of
key/value string pairs, serialized in `json.dumps` style), or a text
blob that fails JSON parsing.
-/

/-- A websocket handle.  `closeCode = none` models
`websocket.close_code is None`, i.e. the socket reports itself open. -/
structure Socket where
  closeCode : Option Nat
deriving DecidableEq

/-- One incoming wire frame, at the granularity `voice_client.py` inspects:
binary data, a JSON object (assoc list of string fields, unique keys), or
text that fails `json.loads`. -/
inductive WireMsg
  | binary (size : Nat)
  | jsonObj (fields : List (String × String))
  | malformed (raw : String)
deriving DecidableEq

/-- Outcome of one `websockets.connect(uri)` call. -/
inductive ConnectEv
  | ok
  | refused
  | errOther
deriving DecidableEq

/-- Outcome of one `websocket.send(...)` call. -/
inductive SendEv
  | ok
  | closed
  | errOther
deriving DecidableEq

/-- Outcome of one `websocket.recv()` call: a frame arrives, no frame
arrives within the wait window (`timeout`), the remote closed the
connection, or some other exception is raised. -/
inductive RecvEv
  | msg (m : WireMsg)
  | timeout
  | closed
  | errOther
deriving DecidableEq

/-- The scripted environment: outcomes for successive connect, send and
receive operations, each consumed in order. -/
structure Env where
  connects : List ConnectEv
  sends : List SendEv
  recvs : List RecvEv
deriving DecidableEq

/-- The mutable state of a `VoiceManagerClient` instance:
`self.user_id`, `self.websocket`, `self.connected`, `self.last_response`,
`self._prefetched_messages`, plus a log of the frames passed to
`self._send_message` (the observable outbound traffic). -/
structure Client where
  user_id : String
  websocket : Option Socket
  connected : Bool
  last_response : Option (List (String × String))
  prefetched_messages : List WireMsg
  sent : List (List (String × String))
deriving DecidableEq

/-- `dict.get key` on a parsed JSON object. -/
def lookupField : List (String × String) → String → Option String
  | [], _ => none
  | (k, v) :: rest, key => if k = key then some v else lookupField rest key

/-- `json.dumps` of the fields of a flat string-valued object, without the
surrounding braces. -/
def serializeFields : List (String × String) → String
  | [] => ""
  | [(k, v)] => "\"" ++ k ++ "\": \"" ++ v ++ "\""
  | (k, v) :: f :: rest =>
      "\"" ++ k ++ "\": \"" ++ v ++ "\", " ++ serializeFields (f :: rest)

/-- `json.dumps` of a flat string-valued object. -/
def serializeObj (fields : List (String × String)) : String :=
  "\x7b" ++ serializeFields fields ++ "\x7d"

/-- The literal `'\x7b"command"'` that `_receive_command_message` matches
with `str.startswith`. -/
def commandStart : String := "\x7b\"command\""

/-- The text of a frame as `websocket.recv()` returns it (`none` for a
binary frame). -/
def WireMsg.rawText : WireMsg → Option String
  | .binary _ => none
  | .jsonObj fields => some (serializeObj fields)
  | .malformed raw => some raw

/-- `json.loads` restricted to what the model can represent: a
`jsonObj` parses to its fields, a `malformed` text raises. -/
def loadsObj : WireMsg → Option (List (String × String))
  | .jsonObj fields => some fields
  | _ => none

/-- Structural prefix test on character lists. -/
def isPrefixList : List Char → List Char → Bool
  | [], _ => true
  | _ :: _, [] => false
  | a :: as, b :: bs => a = b && isPrefixList as bs

/-- `s.startswith(pre)` via the underlying character lists (structural, so
it evaluates in the kernel). -/
def startsWithStr (s pre : String) : Bool := isPrefixList pre.data s.data

/-- The whitespace characters removed by Python `str.strip()`. -/
def isSpaceChar (ch : Char) : Bool :=
  ch = ' ' ∨ ch = '\t' ∨ ch = '\n' ∨ ch = '\r' ∨ ch = '\x0b' ∨ ch = '\x0c'

/-- Python `str.strip()`. -/
def pyStrip (s : String) : String :=
  ⟨((s.data.dropWhile isSpaceChar).reverse.dropWhile isSpaceChar).reverse⟩

/-- `pat` occurs somewhere in the character list. -/
def subListAt : List Char → List Char → Bool
  | pat, [] => pat.isEmpty
  | pat, ch :: rest => isPrefixList pat (ch :: rest) || subListAt pat rest

/-- Python `"pat" in s` (substring test). -/
def containsSub (s pat : String) : Bool := subListAt pat.data s.data

/-- The UID-error test of `connect()`:
`"UID" in error_msg or "First message must contain UID" in error_msg`. -/
def hasUIDError (errMsg : String) : Bool :=
  containsSub errMsg "UID" || containsSub errMsg "First message must contain UID"

/-- The message-inspection pipeline of `_receive_command_message` applied
to one frame: binary is ignored; a text frame is ignored unless its
stripped text starts with `'\x7b"command"'`, parses as JSON, and the result
is a dict containing a `"command"` key; otherwise the parsed dict is
returned. -/
def classifyText (m : WireMsg) : Option (List (String × String)) :=
  match m with
  | .binary _ => none
  | .jsonObj fields =>
      if startsWithStr (pyStrip (serializeObj fields)) commandStart then
        if (lookupField fields "command").isSome then some fields else none
      else none
  | .malformed raw =>
      -- the startswith test may pass, but `json.loads` then raises and
      -- the frame is ignored either way
      if startsWithStr (pyStrip raw) commandStart then none else none

/-- Marks a socket as closed by the remote (its `close_code` becomes set). -/
def closeRemote : Option Socket → Option Socket
  | none => none
  | some _ => some { closeCode := some 1006 }

/-- Consume the next scripted connect outcome. -/
def takeConnect (e : Env) : Option (ConnectEv × Env) :=
  match e.connects with
  | [] => none
  | ev :: rest => some (ev, { e with connects := rest })

/-- Result of one `self._send_message(frame)` call. -/
inductive SendOutcome
  | sOk
  | sClosed
  | sErr
deriving DecidableEq

/-- `self._send_message(frame)`: raises `RuntimeError` when no websocket is
held (modelled as `sErr`, a non-ConnectionClosed exception); otherwise the
scripted send outcome happens.  A successful send appends the frame to the
outbound log; a `ConnectionClosed` send marks the socket closed. -/
def doSend (frame : List (String × String)) (c : Client) (e : Env) :
    Option (SendOutcome × Client × Env) :=
  match c.websocket with
  | none => some (.sErr, c, e)
  | some _ =>
    match e.sends with
    | [] => none
    | ev :: rest =>
      match ev with
      | .ok => some (.sOk, { c with sent := c.sent ++ [frame] },
          { e with sends := rest })
      | .closed => some (.sClosed, { c with websocket := closeRemote c.websocket },
          { e with sends := rest })
      | .errOther => some (.sErr, c, { e with sends := rest })

/-- Result of one receive attempt. -/
inductive RecvOutcome
  | rMsg (m : WireMsg)
  | rTimeout
  | rClosed
  | rErr
deriving DecidableEq

/-- `asyncio.wait_for(self.websocket.recv(), t)`: an empty script means no
further frame ever arrives, so the wait times out.  A remote close marks
the socket closed. -/
def doRecvTimed (c : Client) (e : Env) : RecvOutcome × Client × Env :=
  match e.recvs with
  | [] => (.rTimeout, c, e)
  | ev :: rest =>
    match ev with
    | .msg m => (.rMsg m, c, { e with recvs := rest })
    | .timeout => (.rTimeout, c, { e with recvs := rest })
    | .closed => (.rClosed, { c with websocket := closeRemote c.websocket },
        { e with recvs := rest })
    | .errOther => (.rErr, c, { e with recvs := rest })

/-- A plain `self.websocket.recv()`: if no frame ever arrives the call
blocks forever, so the run is stuck (`none`). -/
def doRecv (c : Client) (e : Env) : Option (RecvOutcome × Client × Env) :=
  match e.recvs with
  | [] => none
  | ev :: rest =>
    match ev with
    | .msg m => some (.rMsg m, c, { e with recvs := rest })
    | .timeout => none
    | .closed => some (.rClosed, { c with websocket := closeRemote c.websocket },
        { e with recvs := rest })
    | .errOther => some (.rErr, c, { e with recvs := rest })

/-- `self._receive_command_message()`: pops the prefetched FIFO first,
otherwise receives from the transport; classifies the frame; a
`ConnectionClosed` sets `self.connected = False` and yields `None`; any
other receive exception yields `None`. -/
def receive_command_message (c : Client) (e : Env) :
    Option (Option (List (String × String)) × Client × Env) :=
  match c.websocket with
  | none => some (none, c, e)
  | some _ =>
    match c.prefetched_messages with
    | m :: rest =>
        some (classifyText m, { c with prefetched_messages := rest }, e)
    | [] =>
      match doRecv c e with
      | none => none
      | some (.rMsg m, c1, e1) => some (classifyText m, c1, e1)
      | some (.rClosed, c1, e1) => some (none, { c1 with connected := false }, e1)
      | some (.rErr, c1, e1) => some (none, c1, e1)
      | some (.rTimeout, _, _) => none

/-- `self.is_connected()`:
`self.connected and self.websocket is not None and self.websocket.close_code is None`. -/
def is_connected (c : Client) : Bool :=
  c.connected &&
    (match c.websocket with
     | some s => s.closeCode = none
     | none => false)

/-- `self.disconnect()`: sets the connected flag false, closes the socket
if it is still open (`websockets`' close does not raise on an
already-closed connection), then drops the handle reference. -/
def disconnect (c : Client) : Client :=
  { c with connected := false, websocket := none }

/-- The current-shape registration frame sent first by `connect()`. -/
def uidFrame (uid : String) : List (String × String) :=
  [("command", "UID"), ("message", uid)]

/-- The legacy registration frame `\x7b"UID": identity\x7d`. -/
def legacyFrame (uid : String) : List (String × String) :=
  [("UID", uid)]

/-- `self._reconnect_with_legacy_uid(uri)`: best-effort close of the
previous socket if it is still open, a fresh `websockets.connect`, then
the legacy registration; success sets `self.connected = True`, any
exception sets it `False`. -/
def reconnect_with_legacy_uid (c : Client) (e : Env) :
    Option (Bool × Client × Env) :=
  let c0 : Client :=
    match c.websocket with
    | some s =>
        if s.closeCode = none then
          { c with websocket := some { closeCode := some 1000 } }
        else c
    | none => c
  match takeConnect e with
  | none => none
  | some (.refused, e1) => some (false, { c0 with connected := false }, e1)
  | some (.errOther, e1) => some (false, { c0 with connected := false }, e1)
  | some (.ok, e1) =>
    let c1 : Client := { c0 with websocket := some { closeCode := none } }
    match doSend (legacyFrame c1.user_id) c1 e1 with
    | none => none
    | some (.sOk, c2, e2) => some (true, { c2 with connected := true }, e2)
    | some (.sClosed, c2, e2) => some (false, { c2 with connected := false }, e2)
    | some (.sErr, c2, e2) => some (false, { c2 with connected := false }, e2)

/-- The probe-frame handling block of `connect()` (lines 69–91 of
`voice_client.py`): binary and non-error frames are buffered for later
consumption; an ERROR frame naming UID triggers an in-place legacy
registration (whose own failure is caught by the inner handler, which
buffers the frame); registration is then considered successful. -/
def handleProbeMsg (m : WireMsg) (c3 : Client) (e3 : Env) :
    Option (Bool × Client × Env) :=
  match m with
  | .binary sz =>
      some (true, { c3 with
        prefetched_messages := c3.prefetched_messages ++ [.binary sz],
        connected := true }, e3)
  | .malformed raw =>
      some (true, { c3 with
        prefetched_messages := c3.prefetched_messages ++ [.malformed raw],
        connected := true }, e3)
  | .jsonObj fields =>
    match lookupField fields "ERROR" with
    | none =>
        some (true, { c3 with
          prefetched_messages := c3.prefetched_messages ++ [.jsonObj fields],
          connected := true }, e3)
    | some errMsg =>
      if hasUIDError errMsg then
        match doSend (legacyFrame c3.user_id) c3 e3 with
        | none => none
        | some (.sOk, c4, e4) => some (true, { c4 with connected := true }, e4)
        -- an exception inside `_send_legacy_uid` is caught by the inner
        -- handler, which buffers the incoming frame, and connect still
        -- reports success
        | some (.sClosed, c4, e4) =>
            some (true, { c4 with
              prefetched_messages := c4.prefetched_messages ++ [.jsonObj fields],
              connected := true }, e4)
        | some (.sErr, c4, e4) =>
            some (true, { c4 with
              prefetched_messages := c4.prefetched_messages ++ [.jsonObj fields],
              connected := true }, e4)
      else
        -- an ERROR without UID-related text is neither answered nor
        -- buffered
        some (true, { c3 with connected := true }, e3)

/-- The probe section of `connect()`: dispatch on the outcome of the
0.3-second `wait_for(recv)` around line 68 of `voice_client.py`.  A
timeout means registration is assumed successful; an immediate remote
close triggers the legacy reconnect; an incoming frame is handled by
`handleProbeMsg`; any other receive exception makes `connect` fail. -/
def probeStep (ro : RecvOutcome) (c3 : Client) (e3 : Env) :
    Option (Bool × Client × Env) :=
  match ro with
  | .rTimeout => some (true, { c3 with connected := true }, e3)
  | .rErr => some (false, c3, e3)
  | .rClosed =>
    match reconnect_with_legacy_uid c3 e3 with
    | none => none
    | some (false, c4, e4) => some (false, c4, e4)
    | some (true, c4, e4) => some (true, { c4 with connected := true }, e4)
  | .rMsg m => handleProbeMsg m c3 e3

/-- `self.connect()`: open the transport, send the current-shape
registration, then probe for 0.3 s.  A probe timeout means success; an
immediate remote close triggers the legacy reconnect; an incoming frame is
inspected for a UID-format error (triggering an in-place legacy
registration) and otherwise buffered in the prefetched FIFO.
`ConnectionRefusedError` and any other exception make `connect` return
`False`. -/
def connect (c : Client) (e : Env) : Option (Bool × Client × Env) :=
  match takeConnect e with
  | none => none
  | some (.refused, e1) => some (false, c, e1)
  | some (.errOther, e1) => some (false, c, e1)
  | some (.ok, e1) =>
    let c1 : Client := { c with websocket := some { closeCode := none } }
    match doSend (uidFrame c1.user_id) c1 e1 with
    | none => none
    | some (.sClosed, c2, e2) => some (false, c2, e2)
    | some (.sErr, c2, e2) => some (false, c2, e2)
    | some (.sOk, c2, e2) =>
      let pr := doRecvTimed c2 e2
      probeStep pr.1 pr.2.1 pr.2.2

/-- `self.reconnect()`: best-effort close of the existing handle, null it,
clear the flag, then `connect()` again. -/
def reconnect (c : Client) (e : Env) : Option (Bool × Client × Env) :=
  connect { c with websocket := none, connected := false } e

/-- One `asyncio.wait_for(self._receive_command_message(), 0.5)` step of
the post-reply drain: a prefetched frame is consumed without waiting;
otherwise a timed receive happens.  `ConnectionClosed` is caught inside
`_receive_command_message` (clearing the flag); other receive errors are
swallowed there too. -/
inductive DrainStep
  | got
  | timedOut
deriving DecidableEq

def receive_command_message_timed (c : Client) (e : Env) :
    DrainStep × Client × Env :=
  match c.websocket with
  | none => (.got, c, e)
  | some _ =>
    match c.prefetched_messages with
    | _ :: rest => (.got, { c with prefetched_messages := rest }, e)
    | [] =>
      match doRecvTimed c e with
      | (.rMsg _, c1, e1) => (.got, c1, e1)
      | (.rTimeout, c1, e1) => (.timedOut, c1, e1)
      | (.rClosed, c1, e1) => (.got, { c1 with connected := false }, e1)
      | (.rErr, c1, e1) => (.got, c1, e1)

/-- The bounded loop of `_consume_additional_server_data` (3 timed receive
attempts, stopping at the first timeout). -/
def consumeLoop : Nat → Client → Env → Client × Env
  | 0, c, e => (c, e)
  | Nat.succ n, c, e =>
    match receive_command_message_timed c e with
    | (.timedOut, c1, e1) => (c1, e1)
    | (.got, c1, e1) => consumeLoop n c1 e1

/-- `self._consume_additional_server_data()`. -/
def consume_additional_server_data (c : Client) (e : Env) : Client × Env :=
  if c.connected then consumeLoop 3 c e else (c, e)

/-- The receive loop of `send_user_message`:
`while attempts < max_attempts and self.connected`, one
`_receive_command_message` per iteration; a structured frame whose
`command` is `LLM`, `SPEAK` or `WRONG` is stored as `last_response` and
stops the loop, everything else is ignored. -/
def recvLoop : Nat → Client → Env →
    Option (Option (List (String × String)) × Client × Env)
  | 0, c, e => some (none, c, e)
  | Nat.succ n, c, e =>
    if c.connected then
      match receive_command_message c e with
      | none => none
      | some (resp, c1, e1) =>
        match resp with
        | none => recvLoop n c1 e1
        | some fields =>
          match lookupField fields "command" with
          | some cmd =>
            if cmd = "LLM" ∨ cmd = "SPEAK" ∨ cmd = "WRONG" then
              some (some fields, { c1 with last_response := some fields }, e1)
            else recvLoop n c1 e1
          | none => recvLoop n c1 e1
    else some (none, c, e)

/-- `self.send_user_message(prompt)`: fail fast when not connected; send
`\x7b"command": "USER", "message": prompt\x7d`; run the bounded receive loop;
on a reply with a non-empty `message` drain trailing data and return the
message, otherwise return `None`.  `ConnectionClosed` during the send
clears the connected flag; any other send error returns `None` leaving the
flag alone. -/
def send_user_message (prompt : String) (c : Client) (e : Env) :
    Option (Option String × Client × Env) :=
  if c.connected then
    match doSend [("command", "USER"), ("message", prompt)] c e with
    | none => none
    | some (.sClosed, c1, e1) => some (none, { c1 with connected := false }, e1)
    | some (.sErr, c1, e1) => some (none, c1, e1)
    | some (.sOk, c1, e1) =>
      match recvLoop 5 c1 e1 with
      | none => none
      | some (found, c2, e2) =>
        match found with
        | some fields =>
          let m : String := (lookupField fields "message").getD ""
          -- `if llm_response:` — empty string is falsy
          if m = "" then some (none, c2, e2)
          else
            let ce := consume_additional_server_data c2 e2
            some (some m, ce.1, ce.2)
        | none => some (none, c2, e2)
  else some (none, c, e)

/-- The parsed fields a frame delivers when it qualifies as a reply in the
receive loop of `send_user_message` (its `command` is LLM/SPEAK/WRONG). -/
def replyFields? (m : WireMsg) : Option (List (String × String)) :=
  match classifyText m with
  | none => none
  | some fields =>
    match lookupField fields "command" with
    | some cmd =>
        if cmd = "LLM" ∨ cmd = "SPEAK" ∨ cmd = "WRONG" then some fields else none
    | none => none

/-- A frame the receive loop ignores (binary, malformed, non-command, or a
command other than LLM/SPEAK/WRONG). -/
def ignorableMsg (m : WireMsg) : Bool := (replyFields? m).isNone

/-- What one iteration of the receive loop does with the outcome `resp` of
`_receive_command_message`, with `n` iterations of budget left. -/
def recvStepResult (n : Nat) (resp : Option (List (String × String)))
    (c1 : Client) (e1 : Env) :
    Option (Option (List (String × String)) × Client × Env) :=
  match resp with
  | none => recvLoop n c1 e1
  | some fields =>
    match lookupField fields "command" with
    | some cmd =>
      if cmd = "LLM" ∨ cmd = "SPEAK" ∨ cmd = "WRONG" then
        some (some fields, { c1 with last_response := some fields }, e1)
      else recvLoop n c1 e1
    | none => recvLoop n c1 e1

/-- Stop with a reply, or keep looping: the receive-loop iteration seen
through `replyFields?`. -/
def stopOrLoop (n : Nat) (r : Option (List (String × String)))
    (c1 : Client) (e1 : Env) :
    Option (Option (List (String × String)) × Client × Env) :=
  match r with
  | some fields => some (some fields, { c1 with last_response := some fields }, e1)
  | none => recvLoop n c1 e1

theorem recvLoop_not_connected (n : Nat) (c : Client) (e : Env)
    (h : c.connected = false) : recvLoop n c e = some (none, c, e) := by
  cases n <;> simp [recvLoop, h]

theorem recvLoop_succ_eq (n : Nat) (c : Client) (e : Env)
    (resp : Option (List (String × String))) (c1 : Client) (e1 : Env)
    (hc : c.connected = true)
    (h : receive_command_message c e = some (resp, c1, e1)) :
    recvLoop (n + 1) c e = recvStepResult n resp c1 e1 := by
  conv_lhs => rw [recvLoop]
  rw [if_pos hc, h]
  rfl

theorem recvStep_spec (n : Nat) (c1 : Client) (e1 : Env) (m : WireMsg) :
    recvStepResult n (classifyText m) c1 e1 = stopOrLoop n (replyFields? m) c1 e1 := by
  unfold recvStepResult replyFields? stopOrLoop
  cases classifyText m with
  | none => rfl
  | some fields =>
    dsimp only
    cases lookupField fields "command" with
    | none => rfl
    | some cmd =>
      dsimp only
      by_cases hq : cmd = "LLM" ∨ cmd = "SPEAK" ∨ cmd = "WRONG"
      · simp only [if_pos hq]
      · simp only [if_neg hq]

theorem recvLoop_ignorable_buf (n : Nat) (c : Client) (e : Env) (m : WireMsg)
    (B : List WireMsg) (s : Socket)
    (hc : c.connected = true) (hw : c.websocket = some s)
    (hm : ignorableMsg m = true) (hpre : c.prefetched_messages = m :: B) :
    recvLoop (n + 1) c e = recvLoop n { c with prefetched_messages := B } e := by
  have hrc : receive_command_message c e =
      some (classifyText m, { c with prefetched_messages := B }, e) := by
    unfold receive_command_message
    rw [hw, hpre]
  unfold ignorableMsg at hm
  rw [Option.isNone_iff_eq_none] at hm
  rw [recvLoop_succ_eq n c e _ _ _ hc hrc, recvStep_spec, hm]
  rfl

theorem recvLoop_ignorable_stream (n : Nat) (c : Client) (e : Env) (m : WireMsg)
    (R : List RecvEv) (s : Socket)
    (hc : c.connected = true) (hw : c.websocket = some s)
    (hm : ignorableMsg m = true) (hpre : c.prefetched_messages = [])
    (he : e.recvs = .msg m :: R) :
    recvLoop (n + 1) c e = recvLoop n c { e with recvs := R } := by
  have hrc : receive_command_message c e =
      some (classifyText m, c, { e with recvs := R }) := by
    unfold receive_command_message doRecv
    rw [hw, hpre, he]
  unfold ignorableMsg at hm
  rw [Option.isNone_iff_eq_none] at hm
  rw [recvLoop_succ_eq n c e _ _ _ hc hrc, recvStep_spec, hm]
  rfl

theorem recvLoop_err_stream (n : Nat) (c : Client) (e : Env)
    (R : List RecvEv) (s : Socket)
    (hc : c.connected = true) (hw : c.websocket = some s)
    (hpre : c.prefetched_messages = []) (he : e.recvs = .errOther :: R) :
    recvLoop (n + 1) c e = recvLoop n c { e with recvs := R } := by
  have hrc : receive_command_message c e = some (none, c, { e with recvs := R }) := by
    unfold receive_command_message doRecv
    rw [hw, hpre, he]
  rw [recvLoop_succ_eq n c e _ _ _ hc hrc]
  rfl

theorem recvLoop_closed_stream (n : Nat) (c : Client) (e : Env)
    (R : List RecvEv) (s : Socket)
    (hc : c.connected = true) (hw : c.websocket = some s)
    (hpre : c.prefetched_messages = []) (he : e.recvs = .closed :: R) :
    recvLoop (n + 1) c e =
      some (none, { c with websocket := some { closeCode := some 1006 }, connected := false },
        { e with recvs := R }) := by
  have hrc : receive_command_message c e =
      some (none, { c with websocket := some { closeCode := some 1006 }, connected := false },
        { e with recvs := R }) := by
    unfold receive_command_message doRecv closeRemote
    rw [hw, hpre, he]
  rw [recvLoop_succ_eq n c e _ _ _ hc hrc]
  unfold recvStepResult
  exact recvLoop_not_connected n _ _ rfl

theorem recvLoop_reply_buf (n : Nat) (c : Client) (e : Env) (m : WireMsg)
    (B : List WireMsg) (s : Socket) (fields : List (String × String))
    (hc : c.connected = true) (hw : c.websocket = some s)
    (hm : replyFields? m = some fields) (hpre : c.prefetched_messages = m :: B) :
    recvLoop (n + 1) c e =
      some (some fields,
        { c with prefetched_messages := B, last_response := some fields }, e) := by
  have hrc : receive_command_message c e =
      some (classifyText m, { c with prefetched_messages := B }, e) := by
    unfold receive_command_message
    rw [hw, hpre]
  rw [recvLoop_succ_eq n c e _ _ _ hc hrc, recvStep_spec, hm]
  rfl

theorem recvLoop_reply_stream (n : Nat) (c : Client) (e : Env) (m : WireMsg)
    (R : List RecvEv) (s : Socket) (fields : List (String × String))
    (hc : c.connected = true) (hw : c.websocket = some s)
    (hm : replyFields? m = some fields) (hpre : c.prefetched_messages = [])
    (he : e.recvs = .msg m :: R) :
    recvLoop (n + 1) c e =
      some (some fields, { c with last_response := some fields },
        { e with recvs := R }) := by
  have hrc : receive_command_message c e =
      some (classifyText m, c, { e with recvs := R }) := by
    unfold receive_command_message doRecv
    rw [hw, hpre, he]
  rw [recvLoop_succ_eq n c e _ _ _ hc hrc, recvStep_spec, hm]
  rfl

theorem recvLoop_junk_buf (J : List WireMsg) (n : Nat) (c : Client) (e : Env)
    (B : List WireMsg) (s : Socket)
    (hc : c.connected = true) (hw : c.websocket = some s)
    (hJ : ∀ m ∈ J, ignorableMsg m = true)
    (hpre : c.prefetched_messages = J ++ B) :
    recvLoop (J.length + n) c e = recvLoop n { c with prefetched_messages := B } e := by
  induction J generalizing c with
  | nil =>
    simp only [List.nil_append] at hpre
    simp only [List.length_nil, Nat.zero_add]
    rw [← hpre]
  | cons m J ih =>
    have hstep := recvLoop_ignorable_buf (J.length + n) c e m (J ++ B) s hc hw
      (hJ m (List.mem_cons_self m J)) (by rw [hpre]; rfl)
    rw [List.length_cons, Nat.succ_add, hstep]
    exact ih { c with prefetched_messages := J ++ B } hc hw
      (fun x hx => hJ x (List.mem_cons_of_mem m hx)) rfl

theorem recvLoop_junk_stream (J : List WireMsg) (n : Nat) (c : Client) (e : Env)
    (R : List RecvEv) (s : Socket)
    (hc : c.connected = true) (hw : c.websocket = some s)
    (hJ : ∀ m ∈ J, ignorableMsg m = true)
    (hpre : c.prefetched_messages = [])
    (he : e.recvs = J.map RecvEv.msg ++ R) :
    recvLoop (J.length + n) c e = recvLoop n c { e with recvs := R } := by
  induction J generalizing e with
  | nil =>
    simp only [List.map_nil, List.nil_append] at he
    simp only [List.length_nil, Nat.zero_add]
    rw [← he]
  | cons m J ih =>
    have hstep := recvLoop_ignorable_stream (J.length + n) c e m
      (J.map RecvEv.msg ++ R) s hc hw (hJ m (List.mem_cons_self m J)) hpre
      (by rw [he]; rfl)
    rw [List.length_cons, Nat.succ_add, hstep]
    exact ih { e with recvs := J.map RecvEv.msg ++ R }
      (fun x hx => hJ x (List.mem_cons_of_mem m hx)) rfl

/-- The user frame `\x7b"command": "USER", "message": prompt\x7d`. -/
def userFrame (prompt : String) : List (String × String) :=
  [("command", "USER"), ("message", prompt)]

/-- What `send_user_message` does with the outcome of its receive loop. -/
def afterLoop (r : Option (Option (List (String × String)) × Client × Env)) :
    Option (Option String × Client × Env) :=
  match r with
  | none => none
  | some (found, c2, e2) =>
    match found with
    | some fields =>
      if (lookupField fields "message").getD "" = "" then some (none, c2, e2)
      else
        let ce := consume_additional_server_data c2 e2
        some (some ((lookupField fields "message").getD ""), ce.1, ce.2)
    | none => some (none, c2, e2)

theorem send_user_message_ok (prompt : String) (c : Client) (e : Env)
    (s : Socket) (S : List SendEv)
    (hc : c.connected = true) (hw : c.websocket = some s)
    (hs : e.sends = .ok :: S) :
    send_user_message prompt c e =
      afterLoop (recvLoop 5 { c with sent := c.sent ++ [userFrame prompt] }
        { e with sends := S }) := by
  have hsend : doSend (userFrame prompt) c e =
      some (.sOk, { c with sent := c.sent ++ [userFrame prompt] }, { e with sends := S }) := by
    unfold doSend
    rw [hw, hs]
  unfold send_user_message
  rw [if_pos hc]
  rw [show [("command", "USER"), ("message", prompt)] = userFrame prompt from rfl, hsend]
  rfl

theorem rcmt_last_response (c : Client) (e : Env) :
    (receive_command_message_timed c e).2.1.last_response = c.last_response := by
  rcases c with ⟨uid, ws, conn, lr, pf, sl⟩
  rcases e with ⟨cs, ss, rs⟩
  unfold receive_command_message_timed doRecvTimed
  cases ws <;> cases pf <;> cases rs <;> try rfl
  all_goals rename_i ev _; cases ev <;> rfl

theorem consumeLoop_last_response (n : Nat) (c : Client) (e : Env) :
    (consumeLoop n c e).1.last_response = c.last_response := by
  induction n generalizing c e with
  | zero => rfl
  | succ n ih =>
    have hlr := rcmt_last_response c e
    unfold consumeLoop
    rcases hstep : receive_command_message_timed c e with ⟨step, c1, e1⟩
    rw [hstep] at hlr
    cases step with
    | timedOut => exact hlr
    | got => rw [ih c1 e1]; exact hlr

theorem consume_data_last_response (c : Client) (e : Env) :
    (consume_additional_server_data c e).1.last_response = c.last_response := by
  unfold consume_additional_server_data
  by_cases h : c.connected = true
  · rw [if_pos h]; exact consumeLoop_last_response 3 c e
  · rw [if_neg h]

theorem afterLoop_reply (fields : List (String × String)) (c2 : Client)
    (e2 : Env) (msg : String)
    (hmsg : lookupField fields "message" = some msg) (hne : msg ≠ "") :
    afterLoop (some (some fields, c2, e2)) =
      some (some msg, (consume_additional_server_data c2 e2).1,
        (consume_additional_server_data c2 e2).2) := by
  unfold afterLoop
  dsimp only
  rw [hmsg]
  simp only [Option.getD_some]
  rw [if_neg hne]

theorem afterLoop_none (c2 : Client) (e2 : Env) :
    afterLoop (some (none, c2, e2)) = some (none, c2, e2) := rfl

/-- C1 (amended): for a connected session, `send_user_message(prompt)`
sends the USER frame and returns the `message` field of the first received
structured payload whose `command` is LLM, SPEAK or WRONG — consuming the
probe-buffered FIFO before the live transport and ignoring 0–4 interleaved
binary, malformed-JSON or non-command frames first — provided that
`message` field is non-empty (an empty or absent `message` field makes it
return `None` instead). -/
theorem c1_returns_first_reply (prompt : String) (c : Client) (e : Env)
    (s : Socket) (J1 J2 : List WireMsg) (reply : WireMsg)
    (fields : List (String × String)) (msg : String)
    (R : List RecvEv) (S : List SendEv)
    (hc : c.connected = true) (hw : c.websocket = some s)
    (hJ : ∀ m ∈ J1 ++ J2, ignorableMsg m = true)
    (hlen : (J1 ++ J2).length ≤ 4)
    (hreply : replyFields? reply = some fields)
    (hmsg : lookupField fields "message" = some msg)
    (hne : msg ≠ "")
    (hsend : e.sends = .ok :: S)
    (hsplit :
      (c.prefetched_messages = J1 ++ [reply] ∧ J2 = []) ∨
      (c.prefetched_messages = J1 ∧
        e.recvs = J2.map RecvEv.msg ++ RecvEv.msg reply :: R)) :
    ∃ c' e', send_user_message prompt c e = some (some msg, c', e') ∧
      c'.last_response = some fields := by
  rw [send_user_message_ok prompt c e s S hc hw hsend]
  rw [List.length_append] at hlen
  set c1 : Client := { c with sent := c.sent ++ [userFrame prompt] } with hc1
  set e1 : Env := { e with sends := S } with he1
  have hcc1 : c1.connected = true := by rw [hc1]; exact hc
  have hww1 : c1.websocket = some s := by rw [hc1]; exact hw
  cases hsplit with
  | inl h =>
    obtain ⟨hpre, hJ2⟩ := h
    obtain ⟨k, hk⟩ : ∃ k, (5 : Nat) = J1.length + (k + 1) :=
      ⟨4 - J1.length, by omega⟩
    rw [hk]
    rw [recvLoop_junk_buf J1 (k + 1) c1 e1 [reply] s hcc1 hww1
      (fun m hm => hJ m (by simp [hJ2] at hm ⊢; exact hm))
      (by rw [hc1]; exact hpre)]
    rw [recvLoop_reply_buf k { c1 with prefetched_messages := [reply] } e1
      reply [] s fields hcc1 hww1 hreply rfl]
    rw [afterLoop_reply fields _ _ msg hmsg hne]
    refine ⟨_, _, rfl, ?_⟩
    rw [consume_data_last_response]
  | inr h =>
    obtain ⟨hpre, he⟩ := h
    obtain ⟨k, hk⟩ : ∃ k, (5 : Nat) = J1.length + (J2.length + (k + 1)) :=
      ⟨4 - (J1.length + J2.length), by omega⟩
    rw [hk]
    rw [recvLoop_junk_buf J1 (J2.length + (k + 1)) c1 e1 [] s hcc1 hww1
      (fun m hm => hJ m (by simp at hm ⊢; exact Or.inl hm))
      (by rw [hc1]; rw [List.append_nil]; exact hpre)]
    rw [recvLoop_junk_stream J2 (k + 1) { c1 with prefetched_messages := [] }
      e1 (RecvEv.msg reply :: R) s hcc1 hww1
      (fun m hm => hJ m (by simp at hm ⊢; exact Or.inr hm)) rfl
      (by rw [he1]; exact he)]
    rw [recvLoop_reply_stream k { c1 with prefetched_messages := [] }
      { e1 with recvs := RecvEv.msg reply :: R } reply R s fields hcc1 hww1
      hreply rfl rfl]
    rw [afterLoop_reply fields _ _ msg hmsg hne]
    refine ⟨_, _, rfl, ?_⟩
    rw [consume_data_last_response]

theorem recvLoop_zero (c : Client) (e : Env) :
    recvLoop 0 c e = some (none, c, e) := rfl

theorem c1_witness :
    ∃ c' e', send_user_message "hello" ⟨"u", some ⟨none⟩, true, none, [], []⟩
        ⟨[], [.ok], [.msg (.binary 3),
          .msg (.jsonObj [("command", "SPEAK"), ("message", "hey")])]⟩
      = some (some "hey", c', e') ∧
      c'.last_response = some [("command", "SPEAK"), ("message", "hey")] :=
  c1_returns_first_reply "hello" ⟨"u", some ⟨none⟩, true, none, [], []⟩
    ⟨[], [.ok], [.msg (.binary 3),
      .msg (.jsonObj [("command", "SPEAK"), ("message", "hey")])]⟩
    ⟨none⟩ [] [WireMsg.binary 3]
    (.jsonObj [("command", "SPEAK"), ("message", "hey")])
    [("command", "SPEAK"), ("message", "hey")] "hey" [] []
    rfl rfl (by decide) (by decide) (by decide) (by decide) (by decide) rfl
    (Or.inr ⟨rfl, rfl⟩)

/-- Counterexample to C1 as stated: the first qualifying reply carries an
empty `message` field, yet `send_user_message` returns `None` rather than
that (empty) `message` field. -/
theorem c1_counterexample :
    replyFields? (.jsonObj [("command", "LLM"), ("message", "")]) =
      some [("command", "LLM"), ("message", "")] ∧
    send_user_message "hi" ⟨"u", some ⟨none⟩, true, none, [], []⟩
        ⟨[], [.ok], [.msg (.jsonObj [("command", "LLM"), ("message", "")])]⟩ =
      some (none, ⟨"u", some ⟨none⟩, true,
        some [("command", "LLM"), ("message", "")], [],
        [[("command", "USER"), ("message", "hi")]]⟩, ⟨[], [], []⟩) := by
  exact ⟨by decide, by decide⟩

/-- C5: if all five receive attempts yield non-reply frames (binary,
malformed JSON, or a command other than LLM/SPEAK/WRONG), whether buffered
or live, `send_user_message` stops receiving, returns `None`, and consumes
exactly five frames — the remaining script `R` is untouched. -/
theorem c5_attempt_ceiling (prompt : String) (c : Client) (e : Env)
    (s : Socket) (J1 J2 : List WireMsg) (R : List RecvEv) (S : List SendEv)
    (hc : c.connected = true) (hw : c.websocket = some s)
    (hpre : c.prefetched_messages = J1)
    (he : e.recvs = J2.map RecvEv.msg ++ R)
    (hsend : e.sends = .ok :: S)
    (hJ : ∀ m ∈ J1 ++ J2, ignorableMsg m = true)
    (hlen : J1.length + J2.length = 5) :
    send_user_message prompt c e =
      some (none,
        { c with sent := c.sent ++ [userFrame prompt], prefetched_messages := [] },
        { e with sends := S, recvs := R }) := by
  rw [send_user_message_ok prompt c e s S hc hw hsend]
  set c1 : Client := { c with sent := c.sent ++ [userFrame prompt] } with hc1
  set e1 : Env := { e with sends := S } with he1
  have hcc1 : c1.connected = true := by rw [hc1]; exact hc
  have hww1 : c1.websocket = some s := by rw [hc1]; exact hw
  have hk : (5 : Nat) = J1.length + (J2.length + 0) := by omega
  rw [hk]
  rw [recvLoop_junk_buf J1 (J2.length + 0) c1 e1 [] s hcc1 hww1
    (fun m hm => hJ m (by simp at hm ⊢; exact Or.inl hm))
    (by rw [hc1]; rw [List.append_nil]; exact hpre)]
  rw [recvLoop_junk_stream J2 0 { c1 with prefetched_messages := [] } e1 R s
    hcc1 hww1 (fun m hm => hJ m (by simp at hm ⊢; exact Or.inr hm)) rfl
    (by rw [he1]; exact he)]
  rw [recvLoop_zero, afterLoop_none, hc1, he1]

theorem c5_witness :
    send_user_message "ping" ⟨"u", some ⟨none⟩, true, none,
        [WireMsg.binary 1, WireMsg.malformed "oops"], []⟩
      ⟨[], [.ok], [.msg (.jsonObj [("client_id", "a"), ("audio_id", "b")]),
        .msg (.binary 9), .msg (.jsonObj [("command", "AUDIO")]),
        .msg (.jsonObj [("command", "LLM"), ("message", "late")])]⟩ =
      some (none, ⟨"u", some ⟨none⟩, true, none, [],
        [[("command", "USER"), ("message", "ping")]]⟩,
        ⟨[], [], [.msg (.jsonObj [("command", "LLM"), ("message", "late")])]⟩) :=
  c5_attempt_ceiling "ping"
    ⟨"u", some ⟨none⟩, true, none,
      [WireMsg.binary 1, WireMsg.malformed "oops"], []⟩
    ⟨[], [.ok], [.msg (.jsonObj [("client_id", "a"), ("audio_id", "b")]),
      .msg (.binary 9), .msg (.jsonObj [("command", "AUDIO")]),
      .msg (.jsonObj [("command", "LLM"), ("message", "late")])]⟩
    ⟨none⟩ [WireMsg.binary 1, WireMsg.malformed "oops"]
    [WireMsg.jsonObj [("client_id", "a"), ("audio_id", "b")],
      WireMsg.binary 9, WireMsg.jsonObj [("command", "AUDIO")]]
    [.msg (.jsonObj [("command", "LLM"), ("message", "late")])] []
    rfl rfl rfl rfl rfl (by decide) (by decide)

/-- Counterexample to C6 as stated: a transport-level error occurs during
a receive inside `send_user_message` (scripted `errOther`), but the error
is swallowed inside `_receive_command_message`, counted as one attempt,
and `send_user_message` then returns the following reply — not `None`. -/
theorem c6_counterexample :
    send_user_message "x" ⟨"u", some ⟨none⟩, true, none, [], []⟩
        ⟨[], [.ok], [.errOther,
          .msg (.jsonObj [("command", "LLM"), ("message", "ok")])]⟩ =
      some (some "ok", ⟨"u", some ⟨none⟩, true,
        some [("command", "LLM"), ("message", "ok")], [],
        [[("command", "USER"), ("message", "x")]]⟩, ⟨[], [], []⟩) := by
  decide

/-- C6 (amended): a remote close during the send, or during the pre-reply
receive loop, clears the connected flag and makes `send_user_message`
return `None`; a transport error during the send returns `None` leaving
the state untouched; a transport error during a receive is swallowed,
counted toward the attempt ceiling, and a later reply can still be
returned. -/
theorem c6_closed_and_error_behavior :
    (∀ (prompt : String) (c : Client) (e : Env) (s : Socket) (S : List SendEv),
      c.connected = true → c.websocket = some s → e.sends = .closed :: S →
      send_user_message prompt c e =
        some (none, { c with
          websocket := some { closeCode := some 1006 },
          connected := false }, { e with sends := S })) ∧
    (∀ (prompt : String) (c : Client) (e : Env) (s : Socket)
      (J1 J2 : List WireMsg) (R : List RecvEv) (S : List SendEv),
      c.connected = true → c.websocket = some s →
      c.prefetched_messages = J1 →
      e.recvs = J2.map RecvEv.msg ++ RecvEv.closed :: R →
      e.sends = .ok :: S →
      (∀ m ∈ J1 ++ J2, ignorableMsg m = true) →
      (J1 ++ J2).length ≤ 4 →
      ∃ c' e', send_user_message prompt c e = some (none, c', e') ∧
        c'.connected = false) ∧
    (∀ (prompt : String) (c : Client) (e : Env) (s : Socket) (S : List SendEv),
      c.connected = true → c.websocket = some s → e.sends = .errOther :: S →
      send_user_message prompt c e = some (none, c, { e with sends := S })) ∧
    (∀ (prompt : String) (c : Client) (e : Env) (s : Socket) (S : List SendEv)
      (reply : WireMsg) (fields : List (String × String)) (msg : String)
      (R : List RecvEv),
      c.connected = true → c.websocket = some s →
      c.prefetched_messages = [] →
      e.recvs = RecvEv.errOther :: RecvEv.msg reply :: R →
      e.sends = .ok :: S →
      replyFields? reply = some fields →
      lookupField fields "message" = some msg → msg ≠ "" →
      ∃ c' e', send_user_message prompt c e = some (some msg, c', e')) := by
  refine ⟨?_, ?_, ?_, ?_⟩
  · intro prompt c e s S hc hw hs
    unfold send_user_message doSend
    rw [if_pos hc, hw, hs]
    rfl
  · intro prompt c e s J1 J2 R S hc hw hpre he hsend hJ hlen
    rw [send_user_message_ok prompt c e s S hc hw hsend]
    rw [List.length_append] at hlen
    set c1 : Client := { c with sent := c.sent ++ [userFrame prompt] } with hc1
    set e1 : Env := { e with sends := S } with he1
    have hcc1 : c1.connected = true := by rw [hc1]; exact hc
    have hww1 : c1.websocket = some s := by rw [hc1]; exact hw
    obtain ⟨k, hk⟩ : ∃ k, (5 : Nat) = J1.length + (J2.length + (k + 1)) :=
      ⟨4 - (J1.length + J2.length), by omega⟩
    rw [hk]
    rw [recvLoop_junk_buf J1 (J2.length + (k + 1)) c1 e1 [] s hcc1 hww1
      (fun m hm => hJ m (by simp at hm ⊢; exact Or.inl hm))
      (by rw [hc1]; rw [List.append_nil]; exact hpre)]
    rw [recvLoop_junk_stream J2 (k + 1) { c1 with prefetched_messages := [] }
      e1 (RecvEv.closed :: R) s hcc1 hww1
      (fun m hm => hJ m (by simp at hm ⊢; exact Or.inr hm)) rfl
      (by rw [he1]; exact he)]
    rw [recvLoop_closed_stream k { c1 with prefetched_messages := [] }
      { e1 with recvs := RecvEv.closed :: R } R s hcc1 hww1 rfl rfl]
    rw [afterLoop_none]
    exact ⟨_, _, rfl, rfl⟩
  · intro prompt c e s S hc hw hs
    unfold send_user_message doSend
    rw [if_pos hc, hw, hs]
  · intro prompt c e s S reply fields msg R hc hw hpre he hsend hreply hmsg hne
    rw [send_user_message_ok prompt c e s S hc hw hsend]
    set c1 : Client := { c with sent := c.sent ++ [userFrame prompt] } with hc1
    set e1 : Env := { e with sends := S } with he1
    have hcc1 : c1.connected = true := by rw [hc1]; exact hc
    have hww1 : c1.websocket = some s := by rw [hc1]; exact hw
    have hk : (5 : Nat) = 4 + 1 := rfl
    rw [hk]
    rw [recvLoop_err_stream 4 c1 e1 (RecvEv.msg reply :: R) s hcc1 hww1
      (by rw [hc1]; exact hpre) (by rw [he1]; exact he)]
    have hk2 : (4 : Nat) = 3 + 1 := rfl
    rw [hk2]
    rw [recvLoop_reply_stream 3 c1
      { e1 with recvs := RecvEv.msg reply :: R } reply R s fields hcc1 hww1
      hreply (by rw [hc1]; exact hpre) rfl]
    rw [afterLoop_reply fields _ _ msg hmsg hne]
    exact ⟨_, _, rfl⟩

theorem c6_witness :
    send_user_message "p" ⟨"u", some ⟨none⟩, true, none, [], []⟩
        ⟨[], [.closed], []⟩ =
      some (none, ⟨"u", some ⟨some 1006⟩, false, none, [], []⟩, ⟨[], [], []⟩) :=
  c6_closed_and_error_behavior.1 "p" ⟨"u", some ⟨none⟩, true, none, [], []⟩
    ⟨[], [.closed], []⟩ ⟨none⟩ [] rfl rfl rfl

theorem doSend_state (frame : List (String × String)) (c : Client) (e : Env)
    (o : SendOutcome) (c2 : Client) (e2 : Env)
    (h : doSend frame c e = some (o, c2, e2)) :
    c2.prefetched_messages = c.prefetched_messages ∧
      c2.connected = c.connected := by
  unfold doSend at h
  repeat' split at h
  all_goals first
    | exact Option.noConfusion h
    | (simp only [Option.some.injEq, Prod.mk.injEq] at h
       obtain ⟨ho, hrec, henv⟩ := h
       subst hrec
       exact ⟨rfl, rfl⟩)

theorem handleProbeMsg_result (m : WireMsg) (c3 : Client) (e3 : Env)
    (b : Bool) (c4 : Client) (e4 : Env)
    (h : handleProbeMsg m c3 e3 = some (b, c4, e4)) :
    b = true ∧ c4.connected = true ∧
      c3.prefetched_messages <+: c4.prefetched_messages := by
  unfold handleProbeMsg at h
  repeat' split at h
  all_goals first
    | exact Option.noConfusion h
    | (simp only [Option.some.injEq, Prod.mk.injEq] at h
       obtain ⟨hb, hrec, henv⟩ := h
       subst hb
       subst hrec
       dsimp only
       first
         | exact ⟨rfl, rfl, List.prefix_append _ _⟩
         | exact ⟨rfl, rfl, List.prefix_rfl⟩
         | (rename_i heq
            obtain ⟨hp, -⟩ := doSend_state _ _ _ _ _ _ heq
            rw [hp]
            first
              | exact ⟨rfl, rfl, List.prefix_append _ _⟩
              | exact ⟨rfl, rfl, List.prefix_rfl⟩))

theorem reconnect_legacy_result (c : Client) (e : Env)
    (b : Bool) (c4 : Client) (e4 : Env)
    (h : reconnect_with_legacy_uid c e = some (b, c4, e4)) :
    c4.connected = b ∧ c4.prefetched_messages = c.prefetched_messages := by
  unfold reconnect_with_legacy_uid takeConnect doSend at h
  repeat' split at h
  all_goals first
    | exact Option.noConfusion h
    | (simp only [Option.some.injEq, Prod.mk.injEq] at h
       obtain ⟨hb, hrec, henv⟩ := h
       subst hb
       subst hrec
       exact ⟨rfl, rfl⟩)

theorem doRecvTimed_state (c : Client) (e : Env) :
    (doRecvTimed c e).2.1.connected = c.connected ∧
    (doRecvTimed c e).2.1.prefetched_messages = c.prefetched_messages := by
  unfold doRecvTimed
  rcases e with ⟨cs, ss, rs⟩
  cases rs with
  | nil => exact ⟨rfl, rfl⟩
  | cons ev rest => cases ev <;> exact ⟨rfl, rfl⟩

theorem probeStep_result (ro : RecvOutcome) (c3 : Client) (e3 : Env)
    (b : Bool) (c4 : Client) (e4 : Env)
    (h : probeStep ro c3 e3 = some (b, c4, e4)) :
    (b = false → c4.connected = false ∨ c4 = c3) ∧
      c3.prefetched_messages <+: c4.prefetched_messages := by
  cases ro with
  | rTimeout =>
    simp only [probeStep, Option.some.injEq, Prod.mk.injEq] at h
    obtain ⟨hb, hrec, henv⟩ := h
    subst hrec
    exact ⟨fun hf => Bool.noConfusion (hb.trans hf), List.prefix_rfl⟩
  | rErr =>
    simp only [probeStep, Option.some.injEq, Prod.mk.injEq] at h
    obtain ⟨hb, hrec, henv⟩ := h
    subst hrec
    exact ⟨fun _ => Or.inr rfl, List.prefix_rfl⟩
  | rClosed =>
    unfold probeStep at h
    rcases hre : reconnect_with_legacy_uid c3 e3 with _ | ⟨b2, c5, e5⟩ <;>
      rw [hre] at h
    · exact Option.noConfusion h
    · obtain ⟨hcn, hpf⟩ := reconnect_legacy_result _ _ _ _ _ hre
      cases b2 with
      | false =>
        simp only [Option.some.injEq, Prod.mk.injEq] at h
        obtain ⟨hb, hrec, henv⟩ := h
        subst hrec
        refine ⟨fun _ => Or.inl hcn, ?_⟩
        rw [hpf]
      | true =>
        simp only [Option.some.injEq, Prod.mk.injEq] at h
        obtain ⟨hb, hrec, henv⟩ := h
        subst hrec
        refine ⟨fun hf => Bool.noConfusion (hb.trans hf), ?_⟩
        dsimp only
        rw [hpf]
  | rMsg m =>
    obtain ⟨hb, hcn, hpf⟩ := handleProbeMsg_result _ _ _ _ _ _ h
    subst hb
    exact ⟨fun hf => Bool.noConfusion hf, hpf⟩

/-- Counterexample to C4 as stated: `connect()` fails (send error during
registration, after the transport opened) and returns `False` with the
flag still false, but the session still holds the websocket handle — the
handle has not been released. -/
theorem c4_counterexample :
    connect ⟨"u", none, false, none, [], []⟩ ⟨[.ok], [.errOther], []⟩ =
      some (false, ⟨"u", some ⟨none⟩, false, none, [], []⟩, ⟨[], [], []⟩) := by
  decide

/-- C4 (amended): whenever `connect()` on a disconnected session returns
failure, the connection-state flag remains false; the transport handle,
however, is not necessarily released — when the failure occurs after the
transport was opened, the session retains the handle. -/
theorem c4_connect_failure_flag (c : Client) (e : Env) (b : Bool)
    (c' : Client) (e' : Env)
    (hc : c.connected = false)
    (h : connect c e = some (b, c', e'))
    (hb : b = false) :
    c'.connected = false := by
  subst hb
  unfold connect takeConnect doSend at h
  repeat' split at h
  all_goals first
    | exact Option.noConfusion h
    | (obtain ⟨hflag, -⟩ := probeStep_result _ _ _ _ _ _ h
       rcases hflag rfl with hf | hf
       · exact hf
       · rw [hf]
         rw [(doRecvTimed_state _ _).1]
         exact hc)
    | (simp only [Option.some.injEq, Prod.mk.injEq] at h
       obtain ⟨hb, hrec, henv⟩ := h
       first
         | exact Bool.noConfusion hb
         | (subst hrec; exact hc))

theorem c4_witness :
    connect ⟨"u", none, false, none, [], []⟩ ⟨[.refused], [], []⟩ =
        some (false, ⟨"u", none, false, none, [], []⟩, ⟨[], [], []⟩) ∧
      Client.connected ⟨"u", none, false, none, [], []⟩ = false :=
  ⟨by decide, c4_connect_failure_flag ⟨"u", none, false, none, [], []⟩
    ⟨[.refused], [], []⟩ false ⟨"u", none, false, none, [], []⟩ ⟨[], [], []⟩
    rfl (by decide) rfl⟩

theorem connect_buffer_extends (c : Client) (e : Env) (b : Bool)
    (c' : Client) (e' : Env) (h : connect c e = some (b, c', e')) :
    c.prefetched_messages <+: c'.prefetched_messages := by
  unfold connect takeConnect doSend at h
  repeat' split at h
  all_goals first
    | exact Option.noConfusion h
    | (have hlem := (probeStep_result _ _ _ _ _ _ h).2
       rw [(doRecvTimed_state _ _).2] at hlem
       exact hlem)
    | (simp only [Option.some.injEq, Prod.mk.injEq] at h
       obtain ⟨hb, hrec, henv⟩ := h
       subst hrec
       exact List.prefix_rfl)

/-- Counterexample to C3 as stated: `connect()` does not clear the probe
buffer — a reply buffered during a previous handshake survives a fresh
`connect()` and is then consumed by the next `send_user_message`, which
returns the stale text. -/
theorem c3_counterexample :
    connect ⟨"u", some ⟨some 1006⟩, false, none,
        [.jsonObj [("command", "LLM"), ("message", "stale")]], []⟩
      ⟨[.ok], [.ok], []⟩ =
      some (true, ⟨"u", some ⟨none⟩, true, none,
        [.jsonObj [("command", "LLM"), ("message", "stale")]],
        [[("command", "UID"), ("message", "u")]]⟩, ⟨[], [], []⟩) ∧
    send_user_message "hello" ⟨"u", some ⟨none⟩, true, none,
        [.jsonObj [("command", "LLM"), ("message", "stale")]],
        [[("command", "UID"), ("message", "u")]]⟩ ⟨[], [.ok], []⟩ =
      some (some "stale", ⟨"u", some ⟨none⟩, true,
        some [("command", "LLM"), ("message", "stale")], [],
        [[("command", "UID"), ("message", "u")],
          [("command", "USER"), ("message", "hello")]]⟩, ⟨[], [], []⟩) := by
  exact ⟨by decide, by decide⟩

/-- C3 (amended): a fresh `connect()` (or `reconnect()`) never clears the
legacy-fallback probe buffer: messages prefetched during an earlier
handshake stay at the front of the FIFO (the buffer is only ever extended
at the back), so they can be consumed by a `send_user_message` issued
after a later connect or reconnect. -/
theorem c3_buffer_never_cleared :
    (∀ (c : Client) (e : Env) (b : Bool) (c' : Client) (e' : Env),
      connect c e = some (b, c', e') →
      c.prefetched_messages <+: c'.prefetched_messages) ∧
    (∀ (c : Client) (e : Env) (b : Bool) (c' : Client) (e' : Env),
      reconnect c e = some (b, c', e') →
      c.prefetched_messages <+: c'.prefetched_messages) :=
  ⟨connect_buffer_extends,
    fun c e b c' e' h => connect_buffer_extends
      { c with websocket := none, connected := false } e b c' e' h⟩

theorem c3_witness :
    Client.prefetched_messages ⟨"u", some ⟨some 1006⟩, false, none,
        [WireMsg.binary 5], []⟩ <+:
      Client.prefetched_messages ⟨"u", some ⟨none⟩, true, none,
        [WireMsg.binary 5], [[("command", "UID"), ("message", "u")]]⟩ :=
  c3_buffer_never_cleared.1
    ⟨"u", some ⟨some 1006⟩, false, none, [WireMsg.binary 5], []⟩
    ⟨[.ok], [.ok], []⟩ true
    ⟨"u", some ⟨none⟩, true, none, [WireMsg.binary 5],
      [[("command", "UID"), ("message", "u")]]⟩
    ⟨[], [], []⟩ (by decide)

/-- C7: `disconnect()` is idempotent: a second call is a no-op, no error is
raised (the model is a total function), and afterwards the connected flag,
the handle and `is_connected` are all cleared/false. -/
theorem c7_disconnect_idempotent (c : Client) :
    disconnect (disconnect c) = disconnect c ∧
    (disconnect c).connected = false ∧
    (disconnect c).websocket = none ∧
    is_connected (disconnect c) = false := by
  unfold disconnect is_connected
  simp

/-- C8: when the connected flag is false, `send_user_message` returns
`None` immediately, with no send, no receive and no state change. -/
theorem c8_send_requires_connection (prompt : String) (c : Client) (e : Env)
    (h : c.connected = false) :
    send_user_message prompt c e = some (none, c, e) := by
  unfold send_user_message
  rw [if_neg (by rw [h]; exact Bool.false_ne_true)]

theorem c8_witness :
    send_user_message "hello" ⟨"u", none, false, none, [], []⟩ ⟨[], [], []⟩ =
      some (none, ⟨"u", none, false, none, [], []⟩, ⟨[], [], []⟩) :=
  c8_send_requires_connection "hello" ⟨"u", none, false, none, [], []⟩
    ⟨[], [], []⟩ rfl

/-- C9: `is_connected` is exactly the conjunction of the connected flag,
the existence of a transport handle, and the handle's close code being
unset; in particular a socket whose close code is set (as after a remote
close) makes it false without any further send attempt. -/
theorem c9_is_connected_conjunction (c : Client) :
    (is_connected c = true ↔
      c.connected = true ∧ ∃ s, c.websocket = some s ∧ s.closeCode = none) ∧
    (∀ s, c.websocket = some s → s.closeCode ≠ none → is_connected c = false) := by
  unfold is_connected
  rcases c with ⟨uid, ws, conn, lr, pf, sl⟩
  cases ws with
  | none => simp
  | some s => cases conn <;> simp

theorem c9_witness :
    is_connected ⟨"u", some ⟨some 1006⟩, true, none, [], []⟩ = false :=
  (c9_is_connected_conjunction ⟨"u", some ⟨some 1006⟩, true, none, [], []⟩).2
    ⟨some 1006⟩ rfl (by simp)

/-- C2: if the remote closes immediately after the current-shape
registration, `connect()` reopens the connection, resends registration in
the legacy shape `\x7b"UID": identity\x7d`, returns `True`, and
`is_connected` then reports true. -/
theorem c2_legacy_reconnect_after_close (uid : String)
    (lr : Option (List (String × String))) (pf : List WireMsg)
    (slog : List (List (String × String))) :
    ∃ c', connect ⟨uid, none, false, lr, pf, slog⟩
        ⟨[.ok, .ok], [.ok, .ok], [.closed]⟩ = some (true, c', ⟨[], [], []⟩) ∧
      c'.connected = true ∧
      is_connected c' = true ∧
      c'.sent = slog ++ [uidFrame uid, legacyFrame uid] ∧
      c'.websocket = some { closeCode := none } := by
  refine ⟨_, rfl, ?_, ?_, ?_, ?_⟩ <;>
    simp [is_connected, uidFrame, legacyFrame, closeRemote, doRecvTimed,
      probeStep, reconnect_with_legacy_uid, takeConnect, doSend,
      List.append_assoc]

/-- C10: a first qualifying reply whose `message` field is the empty
string is stored as `last_response`, but `send_user_message` returns
`None` and skips the post-reply drain (the trailing frame stays
unconsumed). -/
theorem c10_empty_reply_returns_none (prompt uid : String)
    (lr : Option (List (String × String)))
    (slog : List (List (String × String)))
    (cs : List ConnectEv) (S : List SendEv) :
    ∃ c', send_user_message prompt ⟨uid, some ⟨none⟩, true, lr, [], slog⟩
        ⟨cs, .ok :: S, [.msg (.jsonObj [("command", "LLM"), ("message", "")]),
          .msg (.binary 7)]⟩
      = some (none, c', ⟨cs, S, [.msg (.binary 7)]⟩) ∧
      c'.last_response = some [("command", "LLM"), ("message", "")] := by
  refine ⟨_, rfl, rfl⟩
